import Mathlib

/-!
Verification of the gemvm VM lifecycle controller (gemvm.py).

The development has two layers:

1. A small-step interleaving machine for the cooperative (asyncio) tasks of
   `VMControl._run`: each task is represented by a program counter whose
   positions are the suspension points of the corresponding coroutine, and a
   cancellation flag.  Every machine step is the execution of one task from a
   suspension point to the next one (code between suspension points runs
   atomically, as in single-threaded cooperative scheduling).

2. Functional models of the individual coroutine bodies
   (`_wait_until_booted` and `_check_ssh`, the QMP negotiation and shutdown
   loop of `_shut_down`, `_boot_timeout`, `_shutdown_timeout`, the log-scan of
   `_run_vm`, the error collection of `_run`, the log-file handling and the
   exit-status logic of the main block), with Python byte strings rendered as
   lists of byte values and JSON values as an inductive type.
-/

namespace GemVM

/-- Lifecycle phase, mirroring the `VMControl.states` tuple
`("off", "booting", "running", "shutting_down")`. -/
inductive Phase where
  | off
  | booting
  | running
  | shuttingDown
deriving DecidableEq, Repr

/-- The `states` tuple of `VMControl` (gemvm.py line 24). -/
def statesList : List Phase := [.off, .booting, .running, .shuttingDown]

/-- The `state` property setter (gemvm.py lines 52-57): a string is accepted
only when it is one of the four members of `states`, otherwise a `ValueError`
is raised (modelled by `none`). -/
def stateOfString (s : String) : Option Phase :=
  if s = "off" then some .off
  else if s = "booting" then some .booting
  else if s = "running" then some .running
  else if s = "shutting_down" then some .shuttingDown
  else none

/-- Program counter of the `_run_vm` coroutine.  Suspension points: task
created but body not yet run (`atStart`); awaiting `create_subprocess_exec`
after the log file was opened (`spawning`); awaiting `proc.wait()`
(`waiting`); finished (`done`). -/
inductive RunVmPc where
  | atStart
  | spawning
  | waiting
  | done
deriving DecidableEq, Repr

/-- Program counter of the `_wait_until_booted` coroutine.  Suspension
points: task created (`start`); inside `_check_ssh`, awaiting the connection
and the banner line (`inConnect`); awaiting `asyncio.sleep(1)` after a failed
attempt (`inSleep`); finished after a successful attempt (`doneOk`);
finished via the loop condition turning false (`doneOther`, the path with the
stderr message at lines 178-180); finished by cancellation
(`doneCancelled`). -/
inductive ProbePc where
  | start
  | inConnect
  | inSleep
  | doneOk
  | doneOther
  | doneCancelled
deriving DecidableEq, Repr

/-- Program counter of the `_shut_down` coroutine.  Suspension points:
awaiting the `_wait_until_booted` task (`waitBoot`); awaiting
`open_unix_connection` (`opening`); awaiting the greeting `readline`
(`readGreeting`); awaiting the capabilities-reply `readline` (`readReply`);
awaiting the shutdown-request event (`waitEvent`); awaiting a `readline` in
the shutdown loop (`readLoop`); finished normally / by an exception / by
cancellation. -/
inductive ShutDownPc where
  | waitBoot
  | opening
  | readGreeting
  | readReply
  | waitEvent
  | readLoop
  | doneNormal
  | doneError
  | doneCancelled
deriving DecidableEq, Repr

/-- Program counter of the `_boot_timeout` coroutine: awaiting
`asyncio.sleep(300)`, or finished. -/
inductive BootTimeoutPc where
  | sleeping
  | done
deriving DecidableEq, Repr

/-- Program counter of the `_shutdown_timeout` coroutine: awaiting the
`_wait_until_booted` task; awaiting the shutdown-request event; awaiting
`asyncio.sleep(60)`; finished. -/
inductive ShutdownTimeoutPc where
  | waitBoot
  | waitSignal
  | sleeping
  | done
deriving DecidableEq, Repr

/-- Program counter of the `_progress` coroutine: inside its sleep loop, or
finished. -/
inductive ProgressPc where
  | looping
  | done
deriving DecidableEq, Repr

/-- Global configuration of the controller: the shared fields of `VMControl`
(`state`, `_qmp_established`), the one-shot shutdown-request event, one
program counter and one cancellation-requested flag per task, and a flag
recording whether `_run` has performed its synchronous prologue (setting
`state = booting` and creating the tasks). -/
structure Config where
  started : Bool
  state : Phase
  shutdownRequest : Bool
  qmpEstablished : Bool
  runVm : RunVmPc
  probe : ProbePc
  shutDown : ShutDownPc
  bootT : BootTimeoutPc
  shutdownT : ShutdownTimeoutPc
  progress : ProgressPc
  cRunVm : Bool
  cProbe : Bool
  cShutDown : Bool
  cBootT : Bool
  cShutdownT : Bool
  cProgress : Bool
deriving DecidableEq, Repr

/-- Initial configuration: `state = off` (constructor, line 39), no event
set, no task has run. -/
def initConfig : Config where
  started := false
  state := .off
  shutdownRequest := false
  qmpEstablished := false
  runVm := .atStart
  probe := .start
  shutDown := .waitBoot
  bootT := .sleeping
  shutdownT := .waitBoot
  progress := .looping
  cRunVm := false
  cProbe := false
  cShutDown := false
  cBootT := false
  cShutdownT := false
  cProgress := false

/-- Effect of `self._cancel_tasks("_shut_down", "_wait_until_booted",
"_shutdown_timeout", "_boot_timeout")` (gemvm.py lines 159-160). -/
def cancelNamed (c : Config) : Config :=
  { c with cShutDown := true, cProbe := true, cShutdownT := true, cBootT := true }

/-- Effect of `self._cancel_tasks()` with no arguments (gemvm.py lines
355-359): every task in `self._tasks` is cancelled. -/
def cancelAll (c : Config) : Config :=
  { c with cRunVm := true, cProbe := true, cShutDown := true,
           cBootT := true, cShutdownT := true, cProgress := true }

/-- Effect of the `finally` block of `_run_vm` (gemvm.py lines 155-161)
followed by the completion of the task: cancel the four named tasks and set
`state = "off"`. -/
def runVmCleanup (c : Config) : Config :=
  { cancelNamed c with state := .off, runVm := .done }

/-- One step of the cooperative scheduler: some task (or the signal handler)
runs from one suspension point to the next.  Each constructor is annotated
with the gemvm.py lines it executes. -/
inductive Step : Config → Config → Prop where
  /-- Lines 292-330 of `_run`: delete and reopen the log, register the
  SIGINT handler, set `state = "booting"`, create all six tasks.  This is
  synchronous code executed before the first suspension (`gather`). -/
  | ctrlStart (c : Config) (h : c.started = false) :
      Step c { c with started := true, state := .booting }
  /-- The SIGINT handler `_keyboard_interrupt` (lines 115-116): set the
  shutdown-request event.  Idempotent; available once the handler is
  registered. -/
  | sigint (c : Config) (h : c.started = true) :
      Step c { c with shutdownRequest := true }
  /-- Line 122 of `_run_vm`: `open(self.log_file, "a+b")` succeeds; the
  body proceeds to await `create_subprocess_exec`. -/
  | rvOpenOk (c : Config) (hs : c.started = true) (hpc : c.runVm = .atStart)
      (hc : c.cRunVm = false) :
      Step c { c with runVm := .spawning }
  /-- Line 122 of `_run_vm`: `open` raises an `OSError`.  This is outside
  the `try` block, so the `finally` cleanup (lines 155-161) does not run:
  no task is cancelled and the state is not set to off. -/
  | rvOpenFail (c : Config) (hs : c.started = true) (hpc : c.runVm = .atStart)
      (hc : c.cRunVm = false) :
      Step c { c with runVm := .done }
  /-- The task `_run_vm` is cancelled before its body ever runs: the coroutine is
  never entered, so neither the `try` block nor the `finally` runs. -/
  | rvCancelAtStart (c : Config) (hs : c.started = true) (hpc : c.runVm = .atStart)
      (hc : c.cRunVm = true) :
      Step c { c with runVm := .done }
  /-- Lines 127-137: `create_subprocess_exec` succeeds; `self.pid` is
  recorded and the body awaits `proc.wait()`. -/
  | rvSpawnOk (c : Config) (hs : c.started = true) (hpc : c.runVm = .spawning)
      (hc : c.cRunVm = false) :
      Step c { c with runVm := .waiting }
  /-- Lines 127-134: `create_subprocess_exec` raises.  The exception is
  inside the `try`, so the `finally` cleanup runs. -/
  | rvSpawnFail (c : Config) (hs : c.started = true) (hpc : c.runVm = .spawning)
      (hc : c.cRunVm = false) :
      Step c (runVmCleanup c)
  /-- Cancellation delivered while awaiting `create_subprocess_exec`:
  `CancelledError` is raised inside the `try`, so the `finally` cleanup
  runs. -/
  | rvSpawnCancelled (c : Config) (hs : c.started = true) (hpc : c.runVm = .spawning)
      (hc : c.cRunVm = true) :
      Step c (runVmCleanup c)
  /-- Lines 141-161: `proc.wait()` resolves (or `CancelledError` is
  delivered there); the exit status is recorded, the log is scanned on exit
  code 1, and in every case the `finally` cleanup runs: cancel the four
  named tasks and set `state = "off"`. -/
  | rvExit (c : Config) (hs : c.started = true) (hpc : c.runVm = .waiting) :
      Step c (runVmCleanup c)
  /-- Lines 165-168 of `_wait_until_booted`: the `while` condition holds
  (`state == "booting"`), so an ssh attempt starts (first suspension inside
  `_check_ssh`). -/
  | pStartConnect (c : Config) (hs : c.started = true) (hpc : c.probe = .start)
      (hc : c.cProbe = false) (hst : c.state = .booting) :
      Step c { c with probe := .inConnect }
  /-- Lines 165 and 178-180: the `while` condition is false on first
  evaluation; the coroutine prints the state-changed message to stderr and
  returns normally. -/
  | pStartExit (c : Config) (hs : c.started = true) (hpc : c.probe = .start)
      (hc : c.cProbe = false) (hst : c.state ≠ .booting) :
      Step c { c with probe := .doneOther }
  /-- The task `_wait_until_booted` is cancelled before its body first runs. -/
  | pStartCancelled (c : Config) (hs : c.started = true) (hpc : c.probe = .start)
      (hc : c.cProbe = true) :
      Step c { c with probe := .doneCancelled }
  /-- Lines 168-170: the attempt inside `_check_ssh` ends in a
  `ConnectionError` (connection refused, or the banner check at lines
  198-201 failed); the `except` branch starts `asyncio.sleep(1)`. -/
  | pConnectFail (c : Config) (hs : c.started = true) (hpc : c.probe = .inConnect)
      (hc : c.cProbe = false) :
      Step c { c with probe := .inSleep }
  /-- Lines 171-174: `_check_ssh` returned without error (the received line
  begins with the ssh banner): set `state = "running"`, cancel
  `_boot_timeout`, and leave the loop. -/
  | pConnectOk (c : Config) (hs : c.started = true) (hpc : c.probe = .inConnect)
      (hc : c.cProbe = false) :
      Step c { c with probe := .doneOk, state := .running, cBootT := true }
  /-- Cancellation delivered while suspended inside `_check_ssh`. -/
  | pConnectCancelled (c : Config) (hs : c.started = true) (hpc : c.probe = .inConnect)
      (hc : c.cProbe = true) :
      Step c { c with probe := .doneCancelled }
  /-- Line 170 then 165: the retry sleep finishes and the `while` condition
  still holds, so a new attempt starts. -/
  | pSleepWake (c : Config) (hs : c.started = true) (hpc : c.probe = .inSleep)
      (hc : c.cProbe = false) (hst : c.state = .booting) :
      Step c { c with probe := .inConnect }
  /-- Line 170 then 165, 178-180: the retry sleep finishes and the `while`
  condition is false, so the loop exits with the stderr message. -/
  | pSleepExit (c : Config) (hs : c.started = true) (hpc : c.probe = .inSleep)
      (hc : c.cProbe = false) (hst : c.state ≠ .booting) :
      Step c { c with probe := .doneOther }
  /-- Cancellation delivered while suspended in the retry sleep. -/
  | pSleepCancelled (c : Config) (hs : c.started = true) (hpc : c.probe = .inSleep)
      (hc : c.cProbe = true) :
      Step c { c with probe := .doneCancelled }
  /-- Line 233 of `_shut_down`: the awaited `_wait_until_booted` task
  completed normally, so the body proceeds to `open_unix_connection`
  (line 241). -/
  | sdWaitBootOk (c : Config) (hs : c.started = true) (hpc : c.shutDown = .waitBoot)
      (hc : c.cShutDown = false)
      (hp : c.probe = .doneOk ∨ c.probe = .doneOther) :
      Step c { c with shutDown := .opening }
  /-- Line 233: the awaited `_wait_until_booted` task was cancelled, so
  awaiting it raises `CancelledError` into `_shut_down`. -/
  | sdWaitBootCancelledTask (c : Config) (hs : c.started = true)
      (hpc : c.shutDown = .waitBoot) (hp : c.probe = .doneCancelled) :
      Step c { c with shutDown := .doneCancelled }
  /-- Cancellation delivered while awaiting the boot task. -/
  | sdCancelAtWaitBoot (c : Config) (hs : c.started = true)
      (hpc : c.shutDown = .waitBoot) (hc : c.cShutDown = true) :
      Step c { c with shutDown := .doneCancelled }
  /-- Line 241: `open_unix_connection` succeeds; the body enters the `try`
  and awaits the greeting `readline` (line 249). -/
  | sdOpenOk (c : Config) (hs : c.started = true) (hpc : c.shutDown = .opening)
      (hc : c.cShutDown = false) :
      Step c { c with shutDown := .readGreeting }
  /-- Line 241: `open_unix_connection` raises (`ConnectionRefusedError` or
  `FileNotFoundError`); the task fails with that error. -/
  | sdOpenFail (c : Config) (hs : c.started = true) (hpc : c.shutDown = .opening)
      (hc : c.cShutDown = false) :
      Step c { c with shutDown := .doneError }
  /-- Cancellation delivered while awaiting `open_unix_connection`. -/
  | sdCancelAtOpening (c : Config) (hs : c.started = true) (hpc : c.shutDown = .opening)
      (hc : c.cShutDown = true) :
      Step c { c with shutDown := .doneCancelled }
  /-- Lines 249-251: the greeting line arrives; the capabilities request is
  written and the body awaits the reply `readline`. -/
  | sdGreeting (c : Config) (hs : c.started = true) (hpc : c.shutDown = .readGreeting)
      (hc : c.cShutDown = false) :
      Step c { c with shutDown := .readReply }
  /-- Cancellation delivered while awaiting the greeting line. -/
  | sdCancelAtGreeting (c : Config) (hs : c.started = true)
      (hpc : c.shutDown = .readGreeting) (hc : c.cShutDown = true) :
      Step c { c with shutDown := .doneCancelled }
  /-- Lines 251-254: the reply parses and contains `return` mapped to the
  empty object: set `_qmp_established = True` and await the
  shutdown-request event (line 262). -/
  | sdReplyGood (c : Config) (hs : c.started = true) (hpc : c.shutDown = .readReply)
      (hc : c.cShutDown = false) :
      Step c { c with shutDown := .waitEvent, qmpEstablished := true }
  /-- Lines 251-259: the reply fails to parse, or is not the standard
  response: the task fails (`ConnectionError`, `JSONDecodeError` or
  `TypeError`), after closing the writer in the `finally` at line 275. -/
  | sdReplyBad (c : Config) (hs : c.started = true) (hpc : c.shutDown = .readReply)
      (hc : c.cShutDown = false) :
      Step c { c with shutDown := .doneError }
  /-- Cancellation delivered while awaiting the capabilities reply. -/
  | sdCancelAtReply (c : Config) (hs : c.started = true) (hpc : c.shutDown = .readReply)
      (hc : c.cShutDown = true) :
      Step c { c with shutDown := .doneCancelled }
  /-- Lines 262-266: the shutdown-request event is set, so the wait
  resolves; the power-down command is written, `state = "shutting_down"` is
  set, the `while` condition (state not off) holds and the body awaits the
  first `readline` of the shutdown loop. -/
  | sdPowerdown (c : Config) (hs : c.started = true) (hpc : c.shutDown = .waitEvent)
      (hc : c.cShutDown = false) (hev : c.shutdownRequest = true) :
      Step c { c with shutDown := .readLoop, state := .shuttingDown }
  /-- Cancellation delivered while awaiting the shutdown-request event. -/
  | sdCancelAtEvent (c : Config) (hs : c.started = true) (hpc : c.shutDown = .waitEvent)
      (hc : c.cShutDown = true) :
      Step c { c with shutDown := .doneCancelled }
  /-- Lines 266-272: a line arrives that parses but is not a SHUTDOWN
  event; the loop condition is re-evaluated (state is not off) and the body
  awaits the next line. -/
  | sdLoopOther (c : Config) (hs : c.started = true) (hpc : c.shutDown = .readLoop)
      (hc : c.cShutDown = false) (hst : c.state ≠ .off) :
      Step c c
  /-- Lines 266-272: the loop condition is re-evaluated with state off, so
  the loop exits and the task completes normally. -/
  | sdLoopStateOff (c : Config) (hs : c.started = true) (hpc : c.shutDown = .readLoop)
      (hc : c.cShutDown = false) (hst : c.state = .off) :
      Step c { c with shutDown := .doneNormal }
  /-- Lines 267-272: a SHUTDOWN event line arrives: `break`, the `finally`
  closes the writer and the task completes normally. -/
  | sdLoopShutdownEvent (c : Config) (hs : c.started = true)
      (hpc : c.shutDown = .readLoop) (hc : c.cShutDown = false) :
      Step c { c with shutDown := .doneNormal }
  /-- Line 267: `json.loads` raises on a malformed line: the task fails. -/
  | sdLoopParseError (c : Config) (hs : c.started = true)
      (hpc : c.shutDown = .readLoop) (hc : c.cShutDown = false) :
      Step c { c with shutDown := .doneError }
  /-- Cancellation delivered while awaiting a line in the shutdown loop. -/
  | sdCancelAtLoop (c : Config) (hs : c.started = true) (hpc : c.shutDown = .readLoop)
      (hc : c.cShutDown = true) :
      Step c { c with shutDown := .doneCancelled }
  /-- Lines 222-225 of `_boot_timeout`: cancellation delivered during the
  sleep; the `except CancelledError` branch returns without doing
  anything. -/
  | btCancelled (c : Config) (hs : c.started = true) (hpc : c.bootT = .sleeping)
      (hc : c.cBootT = true) :
      Step c { c with bootT := .done }
  /-- Lines 223-228: the sleep completes and state is still booting: print
  the timeout message and force-cancel all tasks. -/
  | btFire (c : Config) (hs : c.started = true) (hpc : c.bootT = .sleeping)
      (hc : c.cBootT = false) (hst : c.state = .booting) :
      Step c (cancelAll { c with bootT := .done })
  /-- Lines 223-228: the sleep completes but state is no longer booting:
  the coroutine returns without doing anything. -/
  | btNoFire (c : Config) (hs : c.started = true) (hpc : c.bootT = .sleeping)
      (hc : c.cBootT = false) (hst : c.state ≠ .booting) :
      Step c { c with bootT := .done }
  /-- Line 284 of `_shutdown_timeout`: the awaited `_wait_until_booted`
  task completed normally; the body awaits the shutdown-request event. -/
  | stWaitBootOk (c : Config) (hs : c.started = true) (hpc : c.shutdownT = .waitBoot)
      (hc : c.cShutdownT = false)
      (hp : c.probe = .doneOk ∨ c.probe = .doneOther) :
      Step c { c with shutdownT := .waitSignal }
  /-- Line 284: the awaited boot task was cancelled, so awaiting it raises
  `CancelledError` into `_shutdown_timeout` (not caught there). -/
  | stWaitBootCancelledTask (c : Config) (hs : c.started = true)
      (hpc : c.shutdownT = .waitBoot) (hp : c.probe = .doneCancelled) :
      Step c { c with shutdownT := .done }
  /-- Cancellation delivered while awaiting the boot task. -/
  | stCancelAtWaitBoot (c : Config) (hs : c.started = true)
      (hpc : c.shutdownT = .waitBoot) (hc : c.cShutdownT = true) :
      Step c { c with shutdownT := .done }
  /-- Line 286: the shutdown-request event is set, so the wait resolves and
  the body starts `asyncio.sleep(60)`. -/
  | stSignal (c : Config) (hs : c.started = true) (hpc : c.shutdownT = .waitSignal)
      (hc : c.cShutdownT = false) (hev : c.shutdownRequest = true) :
      Step c { c with shutdownT := .sleeping }
  /-- Cancellation delivered while awaiting the shutdown-request event. -/
  | stCancelAtSignal (c : Config) (hs : c.started = true)
      (hpc : c.shutdownT = .waitSignal) (hc : c.cShutdownT = true) :
      Step c { c with shutdownT := .done }
  /-- Lines 288-290: the sleep completes: print the shutdown-timeout
  message and force-cancel all tasks. -/
  | stFire (c : Config) (hs : c.started = true) (hpc : c.shutdownT = .sleeping)
      (hc : c.cShutdownT = false) :
      Step c (cancelAll { c with shutdownT := .done })
  /-- Cancellation delivered during the 60 second sleep (not caught in
  `_shutdown_timeout`; the `CancelledError` is absorbed by `gather`). -/
  | stCancelAtSleep (c : Config) (hs : c.started = true)
      (hpc : c.shutdownT = .sleeping) (hc : c.cShutdownT = true) :
      Step c { c with shutdownT := .done }
  /-- Lines 206-214 of `_progress`: state is not off, so one heartbeat
  character is printed and the loop sleeps again. -/
  | prTick (c : Config) (hs : c.started = true) (hpc : c.progress = .looping)
      (hc : c.cProgress = false) (hst : c.state ≠ .off) :
      Step c c
  /-- Line 206: state is off, so the progress loop exits. -/
  | prExit (c : Config) (hs : c.started = true) (hpc : c.progress = .looping)
      (hc : c.cProgress = false) (hst : c.state = .off) :
      Step c { c with progress := .done }
  /-- Cancellation delivered during the progress sleep. -/
  | prCancelled (c : Config) (hs : c.started = true) (hpc : c.progress = .looping)
      (hc : c.cProgress = true) :
      Step c { c with progress := .done }

/-- Configurations reachable from the initial configuration. -/
inductive Reachable : Config → Prop where
  | init : Reachable initConfig
  | step {c c' : Config} : Reachable c → Step c c' → Reachable c'

/-- Inductive invariant of the controller machine. -/
structure Inv (c : Config) : Prop where
  /-- Before the prologue of `_run` has executed, nothing has happened. -/
  i0 : c.started = false → c = initConfig
  /-- While the boot probe is still probing and has not been cancelled, the
  state is still booting (only `_run_vm`, which cancels the probe, and the
  probe itself can move the state away from booting at that point). -/
  i1 : (c.probe = .start ∨ c.probe = .inConnect ∨ c.probe = .inSleep) →
      c.cProbe = false → c.started = true → c.state = .booting
  /-- The defensive exit path of `_wait_until_booted` (lines 178-180) is
  never taken. -/
  i2 : c.probe ≠ .doneOther
  /-- Once `_shut_down` has passed its wait on the boot task, the probe has
  completed successfully. -/
  i3 : (c.shutDown = .opening ∨ c.shutDown = .readGreeting ∨
        c.shutDown = .readReply ∨ c.shutDown = .waitEvent ∨
        c.shutDown = .readLoop) → c.probe = .doneOk
  /-- Between the probe completing successfully and `_shut_down` sending the
  power-down command, the state is running, unless `_run_vm` has completed
  its cleanup, which sets the state off and cancels `_shut_down`. -/
  i4 : c.probe = .doneOk →
      (c.shutDown = .waitBoot ∨ c.shutDown = .opening ∨
       c.shutDown = .readGreeting ∨ c.shutDown = .readReply ∨
       c.shutDown = .waitEvent) →
      c.state = .running ∨ (c.state = .off ∧ c.cShutDown = true)
  /-- After the prologue, the state is off only via the cleanup of
  `_run_vm`, which also cancelled the four named tasks. -/
  i5 : c.started = true → c.state = .off →
      c.cProbe = true ∧ c.cShutDown = true ∧ c.cBootT = true ∧
      c.cShutdownT = true ∧ c.runVm = .done
  /-- The state is running only after a successful probe. -/
  i6 : c.state = .running → c.probe = .doneOk

/-- The configuration reached after the prologue of `_run`. -/
def startedConfig : Config :=
  { initConfig with started := true, state := .booting }

/-! Functional model of the QMP protocol handling in `_shut_down`
(gemvm.py lines 241-272). -/

/-- JSON values, as produced by `json.loads` from one line of the QMP
socket. -/
inductive JVal where
  | str (s : String)
  | num (n : Int)
  | bool (b : Bool)
  | null
  | arr (xs : List JVal)
  | obj (kvs : List (String × JVal))

/-- Python equality of a JSON value with a string literal (`x == "lit"`):
true exactly for the same string, false for every other value. -/
def isStrVal (target : String) : JVal → Bool
  | .str s => s == target
  | _ => false

/-- Python equality of a JSON value with the empty dict (`x == \x7b\x7d`). -/
def isEmptyObj : JVal → Bool
  | .obj [] => true
  | _ => false

/-- Substring test on lists (Python `pat in s`). -/
def containsSub [BEq α] (pat : List α) : List α → Bool
  | [] => pat.isEmpty
  | a :: rest => pat.isPrefixOf (a :: rest) || containsSub pat rest

/-- Python `key in reply and reply[key] == target` for a parsed JSON value
`reply`, with Python semantics of the membership test and the subscript:
for a dict, key membership then lookup; for a list, membership of the key
string among the elements and then a `TypeError` from the string subscript;
for a string, a substring test and then a `TypeError`; for numbers,
booleans and null the membership test itself raises `TypeError`.
A raised exception is `error`. -/
def pyKeyTest (key : String) (target : JVal → Bool) : JVal → Except Unit Bool
  | .obj kvs =>
      .ok (match kvs.lookup key with
           | some v => target v
           | none => false)
  | .arr xs => if xs.any (isStrVal key) then .error () else .ok false
  | .str s => if containsSub key.toList s.toList then .error () else .ok false
  | _ => .error ()

/-- The capabilities request written at line 250, CRLF-terminated. -/
def qmp_capabilities_cmd : String := "\x7b\"execute\": \"qmp_capabilities\"\x7d\r\n"

/-- The power-down request written at line 263, CRLF-terminated. -/
def system_powerdown_cmd : String := "\x7b\"execute\": \"system_powerdown\"\x7d\r\n"

/-- Lines 249-259 of `_shut_down`: the greeting line is consumed and
ignored, the capabilities request is written, and one reply line is read
and parsed (`reply` is its parse result; a parse failure is `error`).
The result is the final value of `_qmp_established` together with the task
outcome: `ok` when the body proceeds to wait for the shutdown request,
`error` when an exception is raised (`JSONDecodeError`, `TypeError`, or the
`ConnectionError` raised at lines 257-259).  There is no retry path. -/
def qmp_negotiate (reply : Except Unit JVal) : Bool × Except Unit Unit :=
  match reply with
  | .error e => (false, .error e)
  | .ok j =>
      match pyKeyTest "return" isEmptyObj j with
      | .error e => (false, .error e)
      | .ok true => (true, .ok ())
      | .ok false => (false, .error ())

/-- Lines 241-259: opening the control socket (which can fail with
`ConnectionRefusedError` or `FileNotFoundError`, the outer `error`),
followed by the capability negotiation. -/
def qmp_connect_and_negotiate (conn : Except Unit (Except Unit JVal)) :
    Bool × Except Unit Unit :=
  match conn with
  | .error e => (false, .error e)
  | .ok reply => qmp_negotiate reply

/-- How the read loop of `_shut_down` (lines 266-272) can finish. -/
inductive LoopExit where
  | shutdownEvent
  | stateOff
  | raised
  | pending
deriving DecidableEq, Repr

/-- The read loop at lines 266-272 of `_shut_down`: while the state is not
off, read one line, parse it, and stop when the parsed value passes the
Python test `"event" in reply and reply["event"] == "SHUTDOWN"`.  The task
parameter `st` is the value the loop observes for `self.state`;  `lines` is
the stream of parse results of the lines delivered by `readline`, and the
result records how the loop finished and how many lines it consumed
(`pending` means the stream was exhausted with the loop still awaiting the
next line). -/
def read_until_shutdown (st : Phase) : List (Except Unit JVal) → LoopExit × Nat
  | [] => if st = .off then (.stateOff, 0) else (.pending, 0)
  | l :: rest =>
      if st = .off then (.stateOff, 0)
      else
        match l with
        | .error _ => (.raised, 1)
        | .ok j =>
            match pyKeyTest "event" (isStrVal "SHUTDOWN") j with
            | .error _ => (.raised, 1)
            | .ok true => (.shutdownEvent, 1)
            | .ok false =>
                let r := read_until_shutdown st rest
                (r.1, r.2 + 1)

/-- Result of the part of `_shut_down` that runs once the shutdown-request
event fires (lines 262-272): the byte strings written to the socket, the
phase the task sets, and the read-loop outcome. -/
structure ShutDownSignalResult where
  writes : List String
  phase : Phase
  exit : LoopExit
  consumed : Nat
deriving DecidableEq, Repr

/-- Lines 262-272 of `_shut_down` after `events["shutdown_request"].wait()`
resolves: write the power-down command (once), set
`self.state = "shutting_down"`, then run the read loop. -/
def shut_down_after_signal (lines : List (Except Unit JVal)) :
    ShutDownSignalResult :=
  let st := Phase.shuttingDown
  let r := read_until_shutdown st lines
  ⟨[system_powerdown_cmd], st, r.1, r.2⟩

/-- Abbreviation for the Python test applied to each line of the read loop
(`"event" in reply and reply["event"] == "SHUTDOWN"`). -/
def isShutdownLine (j : JVal) : Except Unit Bool :=
  pyKeyTest "event" (isStrVal "SHUTDOWN") j

/-! Functional model of the boot probe (`_wait_until_booted` and
`_check_ssh`, gemvm.py lines 163-201). -/

/-- The byte literal at line 198 (the expected ssh banner). -/
def sshBannerBytes : List Nat := "SSH-2.0-".toList.map Char.toNat

/-- Outcome of one probe attempt, as delivered by the network: the
connection is refused, or it is accepted and `readline` returns a (possibly
empty) first line. -/
inductive ProbeOutcome where
  | refused
  | reply (line : List Nat)
deriving DecidableEq, Repr

/-- Model of `_check_ssh` (lines 182-201): a refused connection raises
`ConnectionRefusedError` (a `ConnectionError`); otherwise the writer is
closed, the reply is logged, and `ConnectionError` is raised unless the
line starts with the banner prefix. -/
def check_ssh : ProbeOutcome → Except Unit Unit
  | .refused => .error ()
  | .reply line =>
      if sshBannerBytes.isPrefixOf line then .ok () else .error ()

/-- Observable result of a run of `_wait_until_booted`: the phase it
leaves, whether it cancelled `_boot_timeout`, the retry sleeps it issued,
and whether its loop finished (false means it is still probing and will
keep retrying on further attempt outcomes). -/
structure ProbeRunResult where
  phase : Phase
  bootTimeoutCancelled : Bool
  sleeps : List Nat
  finishedLoop : Bool
deriving DecidableEq, Repr

/-- Model of `_wait_until_booted` (lines 163-180), applied to the stream of attempt
outcomes the network delivers: while the state is booting, try one attempt;
on `ConnectionError` sleep one second and retry, on success set the state
to running, cancel `_boot_timeout` and stop.  No exception escapes the
loop. -/
def wait_until_booted (st : Phase) : List ProbeOutcome → ProbeRunResult
  | [] => if st = .booting then ⟨st, false, [], false⟩ else ⟨st, false, [], true⟩
  | o :: rest =>
      if st = .booting then
        match check_ssh o with
        | .error _ =>
            let r := wait_until_booted st rest
            ⟨r.phase, r.bootTimeoutCancelled, 1 :: r.sleeps, r.finishedLoop⟩
        | .ok _ => ⟨.running, true, [], true⟩
      else ⟨st, false, [], true⟩

/-! Functional model of the watchdogs (`_boot_timeout`, lines 217-228, and
`_shutdown_timeout`, lines 281-290) and of the error collection of `_run`
(lines 331-353). -/

/-- Observable effects of one run of `_boot_timeout`: how long it slept
(none when cancelled mid-sleep), whether it cancelled all tasks, whether it
reported a timeout on stderr, and whether it let an exception escape. -/
structure BootTimeoutResult where
  sleptSeconds : Option Nat
  cancelledAllTasks : Bool
  timeoutReported : Bool
  raisedError : Bool
deriving DecidableEq, Repr

/-- Model of `_boot_timeout` (lines 217-228): sleep 300 seconds; a cancellation
delivered during the sleep is caught by the `except CancelledError` branch,
which just returns; otherwise, if the state is still booting, report the
timeout on stderr and force-cancel all tasks, else do nothing. -/
def boot_timeout (cancelledDuringSleep : Bool) (stateAfterSleep : Phase) :
    BootTimeoutResult :=
  if cancelledDuringSleep then ⟨none, false, false, false⟩
  else if stateAfterSleep = .booting then ⟨some 300, true, true, false⟩
  else ⟨some 300, false, false, false⟩

/-- Suspension points of `_shutdown_timeout` at which a cancellation can be
delivered (the first also covers the `CancelledError` propagated by
awaiting a cancelled boot task at line 284). -/
inductive CancelPoint where
  | duringWaitBoot
  | duringWaitSignal
  | duringSleep
deriving DecidableEq, Repr

/-- Events in the linear trace of `_shutdown_timeout`. -/
inductive STEvent where
  | awaitedBootTask
  | awaitedSignal
  | slept (seconds : Nat)
  | reportedTimeout
  | cancelledAllTasks
deriving DecidableEq, Repr

/-- Whether the `_shutdown_timeout` coroutine ran to completion or was
interrupted by `CancelledError`. -/
inductive TaskOutcome where
  | completed
  | cancelled
deriving DecidableEq, Repr

/-- Model of `_shutdown_timeout` (lines 281-290): await the boot task, then the
shutdown-request event, then sleep 60 seconds, then write the
shutdown-timeout message to stderr and force-cancel all tasks.  The
coroutine does not catch `CancelledError`, so a cancellation delivered at
any of its three suspension points ends the trace there with the cancelled
outcome. -/
def shutdown_timeout (cancelAt : Option CancelPoint) :
    List STEvent × TaskOutcome :=
  match cancelAt with
  | some .duringWaitBoot => ([], .cancelled)
  | some .duringWaitSignal => ([.awaitedBootTask], .cancelled)
  | some .duringSleep => ([.awaitedBootTask, .awaitedSignal], .cancelled)
  | none => ([.awaitedBootTask, .awaitedSignal, .slept 60,
              .reportedTimeout, .cancelledAllTasks], .completed)

/-- Per-task return values observed by the `gather` of `_run` (lines
332-333, with `return_exceptions=True`). -/
inductive TaskRetval where
  | value
  | cancelledError
  | otherError
deriving DecidableEq, Repr

/-- Python `isinstance(retval, Exception)`: `CancelledError` derives from
`BaseException`, not `Exception`. -/
def isException : TaskRetval → Bool
  | .otherError => true
  | _ => false

/-- Python `isinstance(retval, asyncio.CancelledError)`. -/
def isCancelledError : TaskRetval → Bool
  | .cancelledError => true
  | _ => false

/-- Lines 338-346 of `_run`: keep the return values that are exceptions
and not `CancelledError`; only those are appended to the log. -/
def collect_errors (rs : List TaskRetval) : List TaskRetval :=
  rs.filter (fun r => isException r && !isCancelledError r)

/-! Functional model of the log scan of `_run_vm` (lines 141-153). -/

/-- The byte literal at line 150. -/
def mem_err_bytes : List Nat := "cannot set up guest memory".toList.map Char.toNat

/-- Lines 147-153 of `_run_vm`: after `proc.wait()` returns the recorded
exit status, when that status equals 1 the log file is re-read from the
start and `self.mem_err` is set when some line contains the fixed
guest-memory byte string; with any other status the log is not scanned and
the flag keeps its initial value, false. -/
def scan_mem_err (exit_status : Int) (logLines : List (List Nat)) : Bool :=
  if exit_status = 1 then
    logLines.any (fun line => containsSub mem_err_bytes line)
  else false

/-! Functional model of the exit-status logic (`__call__`, lines 105-107,
and the last line of the main block, line 412). -/

/-- The call operator (lines 105-107) returns `self.exit_status`, which
stays None when no exit
status was ever recorded, and the main block ends with
`sys.exit(1 if exit_status is None else exit_status)` (line 412). -/
def final_exit_status (exit_status : Option Int) : Int :=
  match exit_status with
  | none => 1
  | some s => s

/-! Functional model of the session-log handling (lines 82-101 and
297-303). -/

/-- Model of `os.remove` on the session log: deletes it, or raises `OSError`
(`FileNotFoundError`) when the file does not exist.  The log content is a
list of byte lines; `none` stands for an absent file. -/
def os_remove (fs : Option (List (List Nat))) :
    Except Unit (Option (List (List Nat))) :=
  match fs with
  | some _ => .ok none
  | none => .error ()

/-- Lines 297-300 of `_run`: `os.remove(self.log_file)` inside
`try ... except OSError: pass`. -/
def remove_log_ignoring_oserror (fs : Option (List (List Nat))) :
    Option (List (List Nat)) :=
  match os_remove fs with
  | .ok fs' => fs'
  | .error _ => fs

/-- Opening the log in append mode (`"a+"` at line 89, `"a+b"` at line
122): the file is created empty when absent, its content is kept
otherwise, and every subsequent write lands at the end. -/
def open_append (fs : Option (List (List Nat))) : List (List Nat) :=
  match fs with
  | none => []
  | some content => content

/-- One write to a file opened in append mode. -/
def log_append (content : List (List Nat)) (line : List Nat) :
    List (List Nat) :=
  content ++ [line]

theorem inv_init : Inv initConfig := by
  constructor <;> intros <;> simp_all [initConfig]

set_option maxHeartbeats 2000000 in
theorem inv_step {c c' : Config} (h : Inv c) (st : Step c c') : Inv c' := by
  obtain ⟨i0, i1, i2, i3, i4, i5, i6⟩ := h
  cases st
  all_goals first
    | exact ⟨i0, i1, i2, i3, i4, i5, i6⟩
    | (refine ⟨?_, ?_, ?_, ?_, ?_, ?_, ?_⟩ <;>
        (intros; simp_all [runVmCleanup, cancelNamed, cancelAll]) <;> tauto)

theorem reachable_inv {c : Config} (h : Reachable c) : Inv c := by
  induction h with
  | init => exact inv_init
  | step _ st ih => exact inv_step ih st

/-- C1: in every reachable execution the phase variable only takes values in
the four-element state set, and the only observable transitions are
off to booting (performed by the prologue of `_run` before the tasks start),
booting to running (performed by `_wait_until_booted` on a successful probe),
running to shutting_down (performed by `_shut_down` when it sends the
power-down command), and any phase to off (performed only by the `finally`
cleanup of `_run_vm`); moreover no phase other than off is reachable without
the off-to-booting transition having been observed first. -/
theorem phase_lifecycle_transitions {c c' : Config} (hr : Reachable c)
    (st : Step c c') :
    c.state ∈ statesList ∧
    (c.state ≠ .off → c.started = true) ∧
    (c.started = false → c'.started = true →
      c.state = .off ∧ c'.state = .booting) ∧
    (c'.state = c.state ∨
      (c.state = .off ∧ c'.state = .booting ∧
        c.started = false ∧ c'.started = true) ∨
      (c.state = .booting ∧ c'.state = .running ∧
        c.probe = .inConnect ∧ c'.probe = .doneOk) ∨
      (c.state = .running ∧ c'.state = .shuttingDown ∧
        c.shutDown = .waitEvent ∧ c'.shutDown = .readLoop) ∨
      (c'.state = .off ∧ c.runVm ≠ .done ∧ c'.runVm = .done)) := by
  obtain ⟨i0, i1, i2, i3, i4, i5, i6⟩ := reachable_inv hr
  refine ⟨?_, ?_, ?_⟩
  · cases hc : c.state <;> simp [statesList]
  · intro hne
    cases hstart : c.started with
    | false => rw [i0 hstart] at hne; simp [initConfig] at hne
    | true => rfl
  · cases st <;>
      refine ⟨fun h0 h1 => ?_, ?_⟩ <;>
        simp_all [initConfig, runVmCleanup, cancelNamed, cancelAll]

/-- C1 witness: the first step of the controller, instantiating the
transition theorem at the initial configuration. -/
theorem phase_lifecycle_transitions_witness :
    initConfig.state ∈ statesList ∧
    (initConfig.state ≠ .off → initConfig.started = true) ∧
    (initConfig.started = false → startedConfig.started = true →
      initConfig.state = .off ∧ startedConfig.state = .booting) ∧
    (startedConfig.state = initConfig.state ∨
      (initConfig.state = .off ∧ startedConfig.state = .booting ∧
        initConfig.started = false ∧ startedConfig.started = true) ∨
      (initConfig.state = .booting ∧ startedConfig.state = .running ∧
        initConfig.probe = .inConnect ∧ startedConfig.probe = .doneOk) ∨
      (initConfig.state = .running ∧ startedConfig.state = .shuttingDown ∧
        initConfig.shutDown = .waitEvent ∧ startedConfig.shutDown = .readLoop) ∨
      (startedConfig.state = .off ∧ initConfig.runVm ≠ .done ∧
        startedConfig.runVm = .done)) :=
  phase_lifecycle_transitions Reachable.init (Step.ctrlStart initConfig rfl)

/-- C2 counterexample: when `open(self.log_file, "a+b")` at line 122 of
`_run_vm` raises, the exception occurs before the `try` block, so the task
exits by an internal exception without running the `finally` cleanup: no
sibling task is cancelled and the phase is not set to off. -/
theorem run_vm_open_failure_skips_cleanup :
    Reachable startedConfig ∧
    Step startedConfig { startedConfig with runVm := .done } ∧
    startedConfig.runVm = .atStart ∧
    ({ startedConfig with runVm := .done } : Config).runVm = .done ∧
    ({ startedConfig with runVm := .done } : Config).state ≠ .off ∧
    ({ startedConfig with runVm := .done } : Config).cShutDown = false ∧
    ({ startedConfig with runVm := .done } : Config).cProbe = false ∧
    ({ startedConfig with runVm := .done } : Config).cBootT = false ∧
    ({ startedConfig with runVm := .done } : Config).cShutdownT = false := by
  refine ⟨Reachable.step Reachable.init (Step.ctrlStart initConfig rfl),
    Step.rvOpenFail startedConfig rfl rfl rfl, ?_, ?_, ?_, ?_, ?_, ?_, ?_⟩ <;>
    simp [startedConfig, initConfig]

/-- C2 (amended): on every exit path of the body of `_run_vm` from the
`try` block onward — normal process exit, an internal exception raised at or
after the subprocess spawn, or cancellation delivered at one of those
suspension points — the `finally` cleanup cancels the four named sibling
tasks (`_shut_down`, `_wait_until_booted`, `_shutdown_timeout`,
`_boot_timeout`) and sets the phase to off unconditionally. -/
theorem run_vm_cleanup_on_exit {c c' : Config} (st : Step c c')
    (h : c.runVm = .spawning ∨ c.runVm = .waiting) (hd : c'.runVm = .done) :
    c'.cShutDown = true ∧ c'.cProbe = true ∧ c'.cShutdownT = true ∧
    c'.cBootT = true ∧ c'.state = .off := by
  cases st <;> simp_all [runVmCleanup, cancelNamed, cancelAll]

/-- C2 witness: the normal process-exit path, instantiated at the
configuration where the process is being awaited. -/
theorem run_vm_cleanup_on_exit_witness :
    (runVmCleanup { startedConfig with runVm := .waiting }).cShutDown = true ∧
    (runVmCleanup { startedConfig with runVm := .waiting }).cProbe = true ∧
    (runVmCleanup { startedConfig with runVm := .waiting }).cShutdownT = true ∧
    (runVmCleanup { startedConfig with runVm := .waiting }).cBootT = true ∧
    (runVmCleanup { startedConfig with runVm := .waiting }).state = .off :=
  run_vm_cleanup_on_exit
    (Step.rvExit { startedConfig with runVm := .waiting } rfl rfl)
    (Or.inr rfl) rfl

theorem isEmptyObj_iff (v : JVal) : isEmptyObj v = true ↔ v = .obj [] := by
  cases v with
  | obj kvs => cases kvs <;> simp [isEmptyObj]
  | _ => simp [isEmptyObj]

theorem pyKeyTest_ok_true_iff (key : String) (target : JVal → Bool) (j : JVal) :
    pyKeyTest key target j = .ok true ↔
      ∃ kvs v, j = .obj kvs ∧ kvs.lookup key = some v ∧ target v = true := by
  cases j with
  | str s => simp only [pyKeyTest]; split <;> simp
  | arr xs => simp only [pyKeyTest]; split <;> simp
  | obj kvs =>
      simp only [pyKeyTest]
      cases hlk : kvs.lookup key <;> simp [hlk]
  | num n => simp [pyKeyTest]
  | bool b => simp [pyKeyTest]
  | null => simp [pyKeyTest]

/-- C4: capability negotiation sets the control-channel-established flag if
and only if the socket opened and the single reply line parsed to an object
containing the key "return" mapped to the empty object; in every other case
the flag is false and the task fails with an error, and on success the body
proceeds without error. -/
theorem qmp_negotiation_iff (conn : Except Unit (Except Unit JVal)) :
    ((qmp_connect_and_negotiate conn).1 = true ↔
      ∃ kvs, conn = .ok (.ok (.obj kvs)) ∧
        kvs.lookup "return" = some (.obj [])) ∧
    ((qmp_connect_and_negotiate conn).1 = false →
      (qmp_connect_and_negotiate conn).2 = .error ()) ∧
    ((qmp_connect_and_negotiate conn).1 = true →
      (qmp_connect_and_negotiate conn).2 = .ok ()) := by
  rcases conn with e | reply
  · simp [qmp_connect_and_negotiate]
  rcases reply with e | j
  · simp [qmp_connect_and_negotiate, qmp_negotiate]
  have hcn : qmp_connect_and_negotiate (.ok (.ok j)) = qmp_negotiate (.ok j) :=
    rfl
  rw [hcn]
  cases hres : pyKeyTest "return" isEmptyObj j with
  | error e =>
      have h1 : qmp_negotiate (.ok j) = (false, .error e) := by
        simp [qmp_negotiate, hres]
      rw [h1]
      refine ⟨⟨by simp, ?_⟩, fun _ => by cases e; rfl, by simp⟩
      rintro ⟨kvs, hj, hlk⟩
      simp only [Except.ok.injEq] at hj
      subst hj
      simp [pyKeyTest, hlk, isEmptyObj] at hres
  | ok b =>
      cases b with
      | false =>
          have h1 : qmp_negotiate (.ok j) = (false, .error ()) := by
            simp [qmp_negotiate, hres]
          rw [h1]
          refine ⟨⟨by simp, ?_⟩, fun _ => rfl, by simp⟩
          rintro ⟨kvs, hj, hlk⟩
          simp only [Except.ok.injEq] at hj
          subst hj
          simp [pyKeyTest, hlk, isEmptyObj] at hres
      | true =>
          have h1 : qmp_negotiate (.ok j) = (true, .ok ()) := by
            simp [qmp_negotiate, hres]
          rw [h1]
          obtain ⟨kvs, v, hj, hlk, hv⟩ :=
            (pyKeyTest_ok_true_iff "return" isEmptyObj j).mp hres
          subst hj
          refine ⟨⟨fun _ => ⟨kvs, rfl, ?_⟩, fun _ => rfl⟩, by simp, fun _ => rfl⟩
          rw [hlk, (isEmptyObj_iff v).mp hv]

/-- C4 witness: the standard success reply establishes the channel without
error, applied at a concrete reply object. -/
theorem qmp_negotiation_iff_witness :
    (qmp_connect_and_negotiate
      (.ok (.ok (.obj [("return", .obj [])])))).1 = true ∧
    (qmp_connect_and_negotiate
      (.ok (.ok (.obj [("return", .obj [])])))).2 = .ok () :=
  ⟨(qmp_negotiation_iff (.ok (.ok (.obj [("return", .obj [])])))).1.mpr
      ⟨[("return", .obj [])], rfl, rfl⟩,
   (qmp_negotiation_iff (.ok (.ok (.obj [("return", .obj [])])))).2.2
      ((qmp_negotiation_iff (.ok (.ok (.obj [("return", .obj [])])))).1.mpr
        ⟨[("return", .obj [])], rfl, rfl⟩)⟩

theorem read_until_shutdown_cons_error (e : Unit)
    (rest : List (Except Unit JVal)) :
    read_until_shutdown .shuttingDown (.error e :: rest) = (.raised, 1) := by
  simp [read_until_shutdown]

theorem read_until_shutdown_cons_ok {j : JVal} {b : Except Unit Bool}
    (hres : pyKeyTest "event" (isStrVal "SHUTDOWN") j = b)
    (rest : List (Except Unit JVal)) :
    read_until_shutdown .shuttingDown (.ok j :: rest) =
      match b with
      | .error _ => (.raised, 1)
      | .ok true => (.shutdownEvent, 1)
      | .ok false => ((read_until_shutdown .shuttingDown rest).1,
          (read_until_shutdown .shuttingDown rest).2 + 1) := by
  cases b with
  | error e => simp [read_until_shutdown, hres]
  | ok bb => cases bb <;> simp [read_until_shutdown, hres]

theorem read_until_shutdown_skips {pre : List (Except Unit JVal)}
    (hpre : ∀ l ∈ pre, ∃ v, l = .ok v ∧ isShutdownLine v = .ok false)
    (tail : List (Except Unit JVal)) :
    read_until_shutdown .shuttingDown (pre ++ tail) =
      ((read_until_shutdown .shuttingDown tail).1,
       (read_until_shutdown .shuttingDown tail).2 + pre.length) := by
  induction pre with
  | nil => simp
  | cons l pre ih =>
      obtain ⟨v, rfl, hv⟩ := hpre l (by simp)
      have ih' := ih (fun l hl => hpre l (by simp [hl]))
      rw [List.cons_append,
          read_until_shutdown_cons_ok (by simpa [isShutdownLine] using hv)
            (pre ++ tail)]
      rw [ih']
      simp [Nat.add_comm, Nat.add_assoc]

theorem read_until_shutdown_shutdownEvent_iff
    (lines : List (Except Unit JVal)) :
    (read_until_shutdown .shuttingDown lines).1 = .shutdownEvent ↔
      ∃ pre j rest, lines = pre ++ .ok j :: rest ∧
        isShutdownLine j = .ok true ∧
        (∀ l ∈ pre, ∃ v, l = .ok v ∧ isShutdownLine v = .ok false) := by
  induction lines with
  | nil => simp [read_until_shutdown]
  | cons l rest ih =>
      rcases l with e | j
      · rw [read_until_shutdown_cons_error]
        constructor
        · intro h; simp at h
        · rintro ⟨pre, j, rest', heq, hj, hpre⟩
          exfalso
          cases pre with
          | nil => simp at heq
          | cons p pre =>
              simp only [List.cons_append, List.cons.injEq] at heq
              obtain ⟨v, hv, _⟩ := hpre p (by simp)
              rw [← heq.1] at hv
              simp at hv
      · cases hres : pyKeyTest "event" (isStrVal "SHUTDOWN") j with
        | error e =>
            rw [read_until_shutdown_cons_ok hres rest]
            constructor
            · intro h; simp at h
            · rintro ⟨pre, j', rest', heq, hj', hpre⟩
              exfalso
              cases pre with
              | nil =>
                  simp only [List.nil_append, List.cons.injEq] at heq
                  obtain ⟨h1, h2⟩ := heq
                  injection h1 with h1
                  rw [← h1] at hj'
                  simp only [isShutdownLine] at hj'
                  rw [hj'] at hres
                  simp at hres
              | cons p pre =>
                  simp only [List.cons_append, List.cons.injEq] at heq
                  obtain ⟨v, hv, hv2⟩ := hpre p (by simp)
                  rw [← heq.1] at hv
                  injection hv with hv
                  rw [← hv] at hv2
                  simp only [isShutdownLine] at hv2
                  rw [hv2] at hres
                  simp at hres
        | ok b =>
            cases b with
            | true =>
                rw [read_until_shutdown_cons_ok hres rest]
                constructor
                · intro _
                  exact ⟨[], j, rest, by simp,
                    by simp [isShutdownLine, hres], by simp⟩
                · intro _; rfl
            | false =>
                rw [read_until_shutdown_cons_ok hres rest]
                show (read_until_shutdown Phase.shuttingDown rest).1 =
                    LoopExit.shutdownEvent ↔ _
                rw [ih]
                constructor
                · rintro ⟨pre, j', rest', heq, hj', hpre⟩
                  refine ⟨.ok j :: pre, j', rest', by simp [heq], hj', ?_⟩
                  intro l hl
                  rcases List.mem_cons.mp hl with h | h
                  · exact ⟨j, h, by simp [isShutdownLine, hres]⟩
                  · exact hpre l h
                · rintro ⟨pre, j', rest', heq, hj', hpre⟩
                  cases pre with
                  | nil =>
                      simp only [List.nil_append, List.cons.injEq] at heq
                      obtain ⟨h1, h2⟩ := heq
                      injection h1 with h1
                      exfalso
                      rw [← h1] at hj'
                      simp only [isShutdownLine] at hj'
                      rw [hj'] at hres
                      simp at hres
                  | cons p pre =>
                      simp only [List.cons_append, List.cons.injEq] at heq
                      exact ⟨pre, j', rest', heq.2, hj',
                        fun l hl => hpre l (by simp [hl])⟩

/-- C3: after successful negotiation, when the shutdown-request signal
fires the client writes exactly one power-down command (the CRLF-terminated
system_powerdown request), sets the phase to shutting_down, and then loops
reading JSON lines; the loop terminates with the shutdown outcome exactly
when a line arrives whose "event" key equals "SHUTDOWN", every earlier line
failing that test being read and ignored, and it terminates that way only
in that situation. -/
theorem powerdown_once_until_shutdown_event
    (lines : List (Except Unit JVal)) :
    (shut_down_after_signal lines).writes = [system_powerdown_cmd] ∧
    (shut_down_after_signal lines).phase = .shuttingDown ∧
    (∀ pre j rest, lines = pre ++ .ok j :: rest →
      (∀ l ∈ pre, ∃ v, l = .ok v ∧ isShutdownLine v = .ok false) →
      isShutdownLine j = .ok true →
      (shut_down_after_signal lines).exit = .shutdownEvent ∧
      (shut_down_after_signal lines).consumed = pre.length + 1) ∧
    ((shut_down_after_signal lines).exit = .shutdownEvent →
      ∃ pre j rest, lines = pre ++ .ok j :: rest ∧
        isShutdownLine j = .ok true ∧
        (∀ l ∈ pre, ∃ v, l = .ok v ∧ isShutdownLine v = .ok false)) := by
  refine ⟨rfl, rfl, ?_, ?_⟩
  · rintro pre j rest rfl hpre hj
    have hskip := read_until_shutdown_skips hpre (.ok j :: rest)
    have hone : read_until_shutdown .shuttingDown (.ok j :: rest) =
        (.shutdownEvent, 1) := by
      simp only [read_until_shutdown]
      rw [if_neg (show ¬(Phase.shuttingDown = Phase.off) by simp)]
      rw [isShutdownLine] at hj
      simp [hj]
    constructor
    · show (read_until_shutdown .shuttingDown (pre ++ .ok j :: rest)).1 = _
      rw [hskip, hone]
    · show (read_until_shutdown .shuttingDown (pre ++ .ok j :: rest)).2 = _
      rw [hskip, hone]
      simp [Nat.add_comm]
  · intro h
    exact (read_until_shutdown_shutdownEvent_iff lines).mp h

/-- C3 witness: a stream with one interleaved non-matching event line
followed by the SHUTDOWN event. -/
theorem powerdown_once_until_shutdown_event_witness :
    (shut_down_after_signal
        [.ok (.obj [("event", .str "POWERDOWN")]),
         .ok (.obj [("event", .str "SHUTDOWN")])]).writes =
      [system_powerdown_cmd] ∧
    (shut_down_after_signal
        [.ok (.obj [("event", .str "POWERDOWN")]),
         .ok (.obj [("event", .str "SHUTDOWN")])]).exit = .shutdownEvent ∧
    (shut_down_after_signal
        [.ok (.obj [("event", .str "POWERDOWN")]),
         .ok (.obj [("event", .str "SHUTDOWN")])]).consumed = 2 := by
  have h := powerdown_once_until_shutdown_event
    [.ok (.obj [("event", .str "POWERDOWN")]),
     .ok (.obj [("event", .str "SHUTDOWN")])]
  have h3 := h.2.2.1 [.ok (.obj [("event", .str "POWERDOWN")])]
    (.obj [("event", .str "SHUTDOWN")]) [] rfl
    (by
      intro l hl
      simp only [List.mem_singleton] at hl
      exact ⟨.obj [("event", .str "POWERDOWN")], hl, rfl⟩)
    rfl
  exact ⟨h.1, h3.1, h3.2⟩

theorem wait_until_booted_cons_fail {o : ProbeOutcome}
    (h : check_ssh o = .error ()) (rest : List ProbeOutcome) :
    wait_until_booted .booting (o :: rest) =
      ⟨(wait_until_booted .booting rest).phase,
       (wait_until_booted .booting rest).bootTimeoutCancelled,
       1 :: (wait_until_booted .booting rest).sleeps,
       (wait_until_booted .booting rest).finishedLoop⟩ := by
  simp [wait_until_booted, h]

theorem wait_until_booted_cons_ok {o : ProbeOutcome}
    (h : check_ssh o = .ok ()) (rest : List ProbeOutcome) :
    wait_until_booted .booting (o :: rest) = ⟨.running, true, [], true⟩ := by
  simp [wait_until_booted, h]

theorem wait_until_booted_all_fail {outs : List ProbeOutcome}
    (h : ∀ o ∈ outs, check_ssh o = .error ()) :
    wait_until_booted .booting outs =
      ⟨.booting, false, List.replicate outs.length 1, false⟩ := by
  induction outs with
  | nil => simp [wait_until_booted]
  | cons o rest ih =>
      rw [wait_until_booted_cons_fail (h o (by simp)) rest,
          ih (fun o ho => h o (by simp [ho]))]
      simp [List.replicate_succ]

/-- C5: while the phase is booting, every attempt ending in connection
refusal or a first line that does not start with the SSH-2.0- prefix is a
failure followed by a one-second sleep and a retry; the first attempt whose
line starts with the prefix sets the phase to running, cancels the boot
watchdog, and stops the loop; no exception escapes the task, and an
all-failure stream leaves it probing with one one-second sleep per failed
attempt. -/
theorem boot_probe_retries_until_banner (outs : List ProbeOutcome) :
    check_ssh .refused = .error () ∧
    (∀ line, check_ssh (.reply line) = .ok () ↔ sshBannerBytes <+: line) ∧
    ((∀ o ∈ outs, check_ssh o = .error ()) →
      wait_until_booted .booting outs =
        ⟨.booting, false, List.replicate outs.length 1, false⟩) ∧
    (∀ pre o rest, outs = pre ++ o :: rest →
      (∀ p ∈ pre, check_ssh p = .error ()) → check_ssh o = .ok () →
      wait_until_booted .booting outs =
        ⟨.running, true, List.replicate pre.length 1, true⟩) := by
  refine ⟨rfl, ?_, wait_until_booted_all_fail, ?_⟩
  · intro line
    simp only [check_ssh]
    constructor
    · intro h
      by_cases hp : sshBannerBytes.isPrefixOf line = true
      · exact List.isPrefixOf_iff_prefix.mp hp
      · simp [hp] at h
    · intro h
      simp [ List.isPrefixOf_iff_prefix.mpr h]
  · rintro pre o rest rfl hpre hok
    induction pre with
    | nil => simpa using wait_until_booted_cons_ok hok rest
    | cons p pre ih =>
        rw [List.cons_append,
            wait_until_booted_cons_fail (hpre p (by simp)) (pre ++ o :: rest),
            ih (fun q hq => hpre q (by simp [hq]))]
        simp [List.replicate_succ]

/-- C5 witness: one refused attempt followed by a banner reply. -/
theorem boot_probe_retries_until_banner_witness :
    wait_until_booted .booting [.refused, .reply sshBannerBytes] =
      ⟨.running, true, List.replicate 1 1, true⟩ :=
  (boot_probe_retries_until_banner [.refused, .reply sshBannerBytes]).2.2.2
    [.refused] (.reply sshBannerBytes) [] rfl
    (by intro p hp; simp only [List.mem_singleton] at hp; rw [hp]; rfl)
    ((boot_probe_retries_until_banner
        [.refused, .reply sshBannerBytes]).2.1 sshBannerBytes |>.mpr
      ( List.prefix_refl sshBannerBytes))

/-- C6: the boot watchdog sleeps 300 seconds and fires (cancel all tasks,
report a timeout) exactly when the phase is still booting afterwards; a
cancellation mid-sleep does nothing and raises nothing; in the machine, the
phase is running only after a successful probe (so a never-succeeding probe
never yields running), and once the supervisor completes the phase is off
and, once off, stays off. -/
theorem boot_watchdog_semantics :
    (∀ st, boot_timeout true st = ⟨none, false, false, false⟩) ∧
    boot_timeout false .booting = ⟨some 300, true, true, false⟩ ∧
    (∀ st, st ≠ .booting →
      boot_timeout false st = ⟨some 300, false, false, false⟩) ∧
    (∀ c, Reachable c → c.state = .running → c.probe = .doneOk) ∧
    (∀ c c', Step c c' → c.runVm = .waiting → c'.runVm = .done →
      c'.state = .off) ∧
    (∀ c c', Reachable c → Step c c' → c.started = true → c.state = .off →
      c'.state = .off) := by
  refine ⟨fun st => rfl, rfl, ?_, ?_, ?_, ?_⟩
  · intro st h
    simp [boot_timeout, h]
  · intro c hr hst
    exact (reachable_inv hr).i6 hst
  · intro c c' st h1 h2
    cases st <;> simp_all [runVmCleanup, cancelNamed, cancelAll]
  · intro c c' st hr hstart hoff
    obtain ⟨i0, i1, i2, i3, i4, i5, i6⟩ := reachable_inv st
    cases hr <;> simp_all [runVmCleanup, cancelNamed, cancelAll]

/-- C6 witness: a non-booting phase after the sleep does nothing, and the
supervisor-completion step yields the off phase. -/
theorem boot_watchdog_semantics_witness :
    boot_timeout false .running = ⟨some 300, false, false, false⟩ ∧
    (runVmCleanup { startedConfig with runVm := .waiting }).state = .off :=
  ⟨boot_watchdog_semantics.2.2.1 .running (by decide),
   boot_watchdog_semantics.2.2.2.2.1 { startedConfig with runVm := .waiting }
     (runVmCleanup { startedConfig with runVm := .waiting })
     (Step.rvExit { startedConfig with runVm := .waiting } rfl rfl) rfl rfl⟩

/-- C7: the shutdown watchdog first awaits boot completion, then the
shutdown-request signal, then sleeps 60 seconds, and only then reports a
timeout and force-cancels all tasks, in that order; a cancellation
delivered at any of its waits ends it without cancelling anything or
reporting anything, and the resulting `CancelledError` is filtered out of
the logged errors by `_run`, so it is never surfaced as a reported
error. -/
theorem shutdown_watchdog_semantics :
    shutdown_timeout none =
      ([.awaitedBootTask, .awaitedSignal, .slept 60, .reportedTimeout,
        .cancelledAllTasks], .completed) ∧
    (∀ p, (shutdown_timeout (some p)).2 = .cancelled ∧
      .cancelledAllTasks ∉ (shutdown_timeout (some p)).1 ∧
      .reportedTimeout ∉ (shutdown_timeout (some p)).1 ∧
      STEvent.slept 60 ∉ (shutdown_timeout (some p)).1) ∧
    (∀ rs, .cancelledError ∉ collect_errors rs) ∧
    collect_errors [.cancelledError] = [] := by
  refine ⟨rfl, ?_, ?_, rfl⟩
  · intro p
    cases p <;> simp [shutdown_timeout]
  · intro rs h
    simp only [collect_errors, List.mem_filter] at h
    simp [isException] at h

/-- C7 witness: a cancellation during the 60 second sleep, applied at the
concrete cancellation point. -/
theorem shutdown_watchdog_semantics_witness :
    (shutdown_timeout (some .duringSleep)).2 = .cancelled ∧
    STEvent.cancelledAllTasks ∉ (shutdown_timeout (some .duringSleep)).1 ∧
    collect_errors [.cancelledError] = [] :=
  ⟨(shutdown_watchdog_semantics.2.1 .duringSleep).1,
   (shutdown_watchdog_semantics.2.1 .duringSleep).2.1,
   shutdown_watchdog_semantics.2.2.2⟩

theorem containsSub_iff {α : Type} [BEq α] [LawfulBEq α] (pat l : List α) :
    containsSub pat l = true ↔ pat <:+: l := by
  induction l with
  | nil =>
      simp only [containsSub, List.isEmpty_iff, List.infix_nil]
  | cons a rest ih =>
      simp only [containsSub, Bool.or_eq_true, List.isPrefixOf_iff_prefix, ih]
      rw [ List.infix_cons_iff]

/-- C8: the memory-failure flag ends up true if and only if the recorded
exit status equals 1 and some line of the session log contains the fixed
guest-memory byte string; any other exit status, or an absent substring,
leaves it false. -/
theorem mem_err_flag_iff (exit_status : Int) (logLines : List (List Nat)) :
    scan_mem_err exit_status logLines = true ↔
      exit_status = 1 ∧ ∃ line ∈ logLines, mem_err_bytes <:+: line := by
  by_cases h : exit_status = 1
  · simp [scan_mem_err, h, List.any_eq_true, containsSub_iff]
  · simp [scan_mem_err, h]

/-- C8 witness: exit status 1 and a log line holding exactly the
guest-memory byte string set the flag; exit status 0 leaves it unset. -/
theorem mem_err_flag_iff_witness :
    scan_mem_err 1 [mem_err_bytes] = true ∧
    scan_mem_err 0 [mem_err_bytes] = false :=
  ⟨(mem_err_flag_iff 1 [mem_err_bytes]).mpr
      ⟨rfl, mem_err_bytes, by simp, List.infix_refl mem_err_bytes⟩,
   by
    have h := mem_err_flag_iff 0 [mem_err_bytes]
    by_contra hc
    simp only [Bool.not_eq_false] at hc
    have := (h.mp hc).1
    simp at this⟩

/-- C9: the status the run exits with mirrors the recorded process exit
status whenever one was obtained, and is 1 when none was obtained. -/
theorem exit_status_mirrors_process :
    (∀ s, final_exit_status (some s) = s) ∧ final_exit_status none = 1 :=
  ⟨fun _ => rfl, rfl⟩

/-- C10: at the start of every run the controller deletes any pre-existing
session log (silently when none exists) and reopens it in append mode, so
the reopened log is empty whatever existed before; every write during the
run appends, so after replaying the run writes the log holds exactly the
lines written by that run. -/
theorem log_reset_and_append_only (prior : Option (List (List Nat)))
    (msgs : List (List Nat)) (content : List (List Nat)) :
    open_append (remove_log_ignoring_oserror prior) = [] ∧
    msgs.foldl log_append content = content ++ msgs ∧
    msgs.foldl log_append (open_append (remove_log_ignoring_oserror prior))
      = msgs := by
  have h1 : open_append (remove_log_ignoring_oserror prior) = [] := by
    cases prior <;> rfl
  have h2 : ∀ (init : List (List Nat)) (ms : List (List Nat)),
      ms.foldl log_append init = init ++ ms := by
    intro init ms
    induction ms generalizing init with
    | nil => simp
    | cons m ms ih => simp [log_append, ih]
  exact ⟨h1, h2 content msgs, by rw [h1, h2]; simp⟩

end GemVM
